import Mathlib

/-!
Verification of the documentation-generation core: structural extraction
(`code_parser.py`), heuristic synthesis (`llm_interface.py`), formatting
(`doc_generator.py`) and quality evaluation (`evaluator.py`).

Text is modelled as `String` (lists of characters); Python's exact decimal
`round` is modelled on `ℚ` by round-half-to-even; Python `float` quantities
are modelled by exact rationals.  All ASCII-level string primitives used by
the code (`str.split`, `str.lower`, `str.strip`, substring membership,
`str.capitalize`, `str.replace`) are translated below.
-/

/-- The whitespace class used by Python `str.split()` / regex `\s`
(ASCII fragment: space, tab, newline, carriage return, vertical tab, form feed). -/
def pyIsSpace (c : Char) : Bool :=
  c = ' ' || c = '\t' || c = '\n' || c = '\r' || c = '\x0b' || c = '\x0c'

/-- The regex word class `\w` (ASCII fragment: letters, digits, underscore). -/
def isWordChar (c : Char) : Bool :=
  c.isAlphanum || c = '_'

/-- Helper for `splitOnChar`, accumulating the current field in reverse. -/
def splitOnCharAux (sep : Char) : List Char → List Char → List (List Char)
  | [], acc => [acc.reverse]
  | c :: rest, acc =>
    if c = sep then acc.reverse :: splitOnCharAux sep rest []
    else splitOnCharAux sep rest (c :: acc)

/-- Python `s.split(sep)` for a one-character separator: every occurrence of
`sep` delimits a field and empty fields are kept (`"".split(sep) == [""]`). -/
def splitOnChar (sep : Char) (l : List Char) : List (List Char) :=
  splitOnCharAux sep l []

/-- Helper for `pySplitWs`, accumulating the current word in reverse. -/
def pySplitWsAux : List Char → List Char → List (List Char)
  | [], acc => if acc.isEmpty then [] else [acc.reverse]
  | c :: rest, acc =>
    if pyIsSpace c then
      if acc.isEmpty then pySplitWsAux rest []
      else acc.reverse :: pySplitWsAux rest []
    else pySplitWsAux rest (c :: acc)

/-- Python `s.split()` with no argument: split on runs of whitespace,
never producing empty words. -/
def pySplitWs (l : List Char) : List (List Char) :=
  pySplitWsAux l []

/-- Number of whitespace-separated words of a string, `len(s.split())`. -/
def wordCount (s : String) : Nat :=
  (pySplitWs s.toList).length

/-- Python substring membership `pat in s`. -/
def containsSub (s pat : String) : Bool :=
  decide (pat.toList <:+: s.toList)

/-- Python `s.lower()` (ASCII fragment). -/
def pyLower (s : String) : String :=
  String.mk (s.toList.map Char.toLower)

/-- Python `s.strip()` (ASCII whitespace fragment). -/
def pyStrip (s : String) : String :=
  String.mk (((s.toList.dropWhile pyIsSpace).reverse.dropWhile pyIsSpace).reverse)

/-- Python `s.capitalize()`: first character upper-cased, the rest lower-cased. -/
def pyCapitalize (s : String) : String :=
  match s.toList with
  | [] => ""
  | c :: r => String.mk (Char.toUpper c :: r.map Char.toLower)

/-- Python `s.startswith(pat)`. -/
def startsWithPy (s pat : String) : Bool :=
  pat.toList.isPrefixOf s.toList

/-- Python `sep.join(parts)`. -/
def joinSep (sep : String) : List String → String
  | [] => ""
  | [x] => x
  | x :: y :: xs => x ++ sep ++ joinSep sep (y :: xs)

/-- Fuelled worker for `replaceSub` (left-to-right, non-overlapping). -/
def replaceSubGo (pat repl : List Char) : Nat → List Char → List Char
  | _, [] => []
  | 0, l => l
  | fuel + 1, c :: rest =>
    if pat.isPrefixOf (c :: rest) then repl ++ replaceSubGo pat repl fuel ((c :: rest).drop pat.length)
    else c :: replaceSubGo pat repl fuel rest

/-- Python `s.replace(pat, repl)`: replace all non-overlapping occurrences,
scanning left to right. -/
def replaceSub (s pat repl : String) : String :=
  String.mk (replaceSubGo pat.toList repl.toList (s.toList.length + 1) s.toList)

/-- Round-half-to-even on exact rationals: the rounding rule of Python's
built-in `round`. -/
def roundHalfEven (x : ℚ) : ℤ :=
  if x - ⌊x⌋ < 1 / 2 then ⌊x⌋
  else if 1 / 2 < x - ⌊x⌋ then ⌊x⌋ + 1
  else if 2 ∣ ⌊x⌋ then ⌊x⌋ else ⌊x⌋ + 1

/-- Python `round(x, 2)` on exact rationals. -/
def pyRound2 (x : ℚ) : ℚ :=
  (roundHalfEven (x * 100) : ℚ) / 100

theorem roundHalfEven_intCast (n : ℤ) : roundHalfEven (n : ℚ) = n := by
  unfold roundHalfEven
  rw [Int.floor_intCast]
  norm_num

theorem floor_le_roundHalfEven (x : ℚ) : ⌊x⌋ ≤ roundHalfEven x := by
  unfold roundHalfEven
  split
  · exact le_refl _
  · split
    · omega
    · split <;> omega

theorem roundHalfEven_le_floor_add_one (x : ℚ) : roundHalfEven x ≤ ⌊x⌋ + 1 := by
  unfold roundHalfEven
  split
  · omega
  · split
    · omega
    · split <;> omega

theorem roundHalfEven_eq_floor_of_lt {x : ℚ} (h : x - ⌊x⌋ < 1 / 2) :
    roundHalfEven x = ⌊x⌋ := by
  unfold roundHalfEven
  rw [if_pos h]

theorem roundHalfEven_eq_succ_of_gt {x : ℚ} (h : 1 / 2 < x - ⌊x⌋) :
    roundHalfEven x = ⌊x⌋ + 1 := by
  unfold roundHalfEven
  rw [if_neg (lt_asymm h), if_pos h]

theorem roundHalfEven_mono {x y : ℚ} (h : x ≤ y) :
    roundHalfEven x ≤ roundHalfEven y := by
  rcases lt_or_eq_of_le (Int.floor_le_floor h) with hf | hf
  · calc roundHalfEven x ≤ ⌊x⌋ + 1 := roundHalfEven_le_floor_add_one x
      _ ≤ ⌊y⌋ := by omega
      _ ≤ roundHalfEven y := floor_le_roundHalfEven y
  · have hfq : ((⌊x⌋ : ℤ) : ℚ) = ((⌊y⌋ : ℤ) : ℚ) := by exact_mod_cast hf
    by_cases c1 : x - (⌊x⌋ : ℚ) < 1 / 2
    · rw [roundHalfEven_eq_floor_of_lt c1, hf]
      exact floor_le_roundHalfEven y
    · by_cases c2 : (1 : ℚ) / 2 < y - ⌊y⌋
      · rw [roundHalfEven_eq_succ_of_gt c2]
        calc roundHalfEven x ≤ ⌊x⌋ + 1 := roundHalfEven_le_floor_add_one x
          _ = ⌊y⌋ + 1 := by rw [hf]
      · have hx2 : x - (⌊x⌋ : ℚ) = 1 / 2 := by
          have : x - (⌊x⌋ : ℚ) ≤ 1 / 2 := by linarith [le_of_not_lt c2]
          linarith [le_of_not_lt c1]
        have hy2 : y - (⌊y⌋ : ℚ) = 1 / 2 := by
          have : (1 : ℚ) / 2 ≤ y - ⌊y⌋ := by linarith [le_of_not_lt c1]
          linarith [le_of_not_lt c2]
        have hxy : x = y := by linarith
        rw [hxy]

theorem pyRound2_intCast (n : ℤ) : pyRound2 (n : ℚ) = n := by
  unfold pyRound2
  have : ((n : ℚ)) * 100 = ((n * 100 : ℤ) : ℚ) := by push_cast; ring
  rw [this, roundHalfEven_intCast]
  push_cast
  ring

theorem pyRound2_mono {x y : ℚ} (h : x ≤ y) : pyRound2 x ≤ pyRound2 y := by
  unfold pyRound2
  have h1 : x * 100 ≤ y * 100 := by linarith
  have := roundHalfEven_mono h1
  have h2 : ((roundHalfEven (x * 100) : ℤ) : ℚ) ≤ ((roundHalfEven (y * 100) : ℤ) : ℚ) := by
    exact_mod_cast this
  linarith

theorem pyRound2_bounds {x : ℚ} {a b : ℤ} (ha : (a : ℚ) ≤ x) (hb : x ≤ (b : ℚ)) :
    (a : ℚ) ≤ pyRound2 x ∧ pyRound2 x ≤ (b : ℚ) := by
  constructor
  · have := pyRound2_mono ha
    rwa [pyRound2_intCast] at this
  · have := pyRound2_mono hb
    rwa [pyRound2_intCast] at this

/-! ## Data model (`code_parser.py`)

`FunctionInfo.return_ann` embeds the source field `return_annotation`
(shortened name only). Line numbers are 1-based as in the source. -/

/-- `FunctionInfo` from `code_parser.py`. -/
structure FunctionInfo where
  name : String
  params : List String
  return_ann : Option String
  docstring : Option String
  line_start : Nat
  line_end : Nat
  body : String
deriving DecidableEq

/-- `ClassInfo` from `code_parser.py`. -/
structure ClassInfo where
  name : String
  methods : List FunctionInfo
  docstring : Option String
  line_start : Nat
  line_end : Nat
deriving DecidableEq

/-- `CodeStructure` from `code_parser.py`. -/
structure CodeStructure where
  functions : List FunctionInfo
  classes : List ClassInfo
  module_docstring : Option String
  total_lines : Nat
  is_valid : Bool
  error_message : Option String
deriving DecidableEq

/-! ## Evaluation engine (`evaluator.py`) -/

/-- The stop-word set of `DocumentationEvaluator.__init__`. -/
def stop_words : List String :=
  ["the", "a", "an", "and", "or", "but", "in", "on", "at", "to", "for",
   "of", "with", "by", "from", "as", "is", "was", "are", "were", "be",
   "been", "being", "have", "has", "had", "do", "does", "did", "will",
   "would", "should", "could", "may", "might", "must", "can", "this",
   "that", "these", "those", "it", "its"]

/-- `DocumentationEvaluator._extract_keywords`: lower-case the text, replace
every character outside `[a-z0-9\s]` with a space, split on whitespace, and
keep the set of words that are not stop words and are longer than 2. -/
def extract_keywords (text : String) : Finset String :=
  let lowered := text.toList.map Char.toLower
  let cleaned := lowered.map
    (fun c => if ('a' ≤ c ∧ c ≤ 'z') ∨ ('0' ≤ c ∧ c ≤ '9') ∨ pyIsSpace c then c else ' ')
  let words := pySplitWs cleaned
  ((words.filter
      (fun w => ¬ stop_words.contains (String.mk w) ∧ w.length > 2)).map String.mk).toFinset

/-- `DocumentationEvaluator.calculate_keyword_overlap`: Jaccard similarity of
the two keyword sets scaled to 0-100 and rounded to 2 decimals; 0 when either
set is empty. -/
def calculate_keyword_overlap (ai_docs human_docs : String) : ℚ :=
  let ai_keywords := extract_keywords ai_docs
  let human_keywords := extract_keywords human_docs
  if ai_keywords = ∅ ∨ human_keywords = ∅ then 0
  else
    pyRound2 ((((ai_keywords ∩ human_keywords).card : ℚ) /
      ((ai_keywords ∪ human_keywords).card : ℚ)) * 100)

/-- `DocumentationEvaluator.calculate_coverage`: 100 when the model has no
functions and no classes; otherwise the percentage of element names occurring
(case-insensitively, as substrings) in the document, rounded to 2 decimals. -/
def calculate_coverage (docs : String) (code_structure : CodeStructure) : ℚ :=
  let total_elements := code_structure.functions.length + code_structure.classes.length
  if total_elements = 0 then 100
  else
    let documented_count :=
      (code_structure.functions.filter
        (fun f => containsSub (pyLower docs) (pyLower f.name))).length +
      (code_structure.classes.filter
        (fun c => containsSub (pyLower docs) (pyLower c.name))).length
    pyRound2 (((documented_count : ℚ) / (total_elements : ℚ)) * 100)

/-- `DocumentationEvaluator.calculate_length_ratio`: word-count ratio of the
two documents rounded to 2 decimals; 1.0 when the reference has no words. -/
def calculate_length_ratio (ai_docs human_docs : String) : ℚ :=
  let ai_words := wordCount ai_docs
  let human_words := wordCount human_docs
  if human_words = 0 then 1
  else pyRound2 ((ai_words : ℚ) / (human_words : ℚ))

/-- Check 4 helper: which of the four section headers (case-insensitively)
starts the given line, returning the matched text (the regex capture of
`^(Args|Parameters|Returns|Examples):` under `re.MULTILINE | re.IGNORECASE`). -/
def headerOf (line : List Char) : Option (List Char) :=
  let low := line.map Char.toLower
  if "args:".toList.isPrefixOf low then some (line.take 4)
  else if "parameters:".toList.isPrefixOf low then some (line.take 10)
  else if "returns:".toList.isPrefixOf low then some (line.take 7)
  else if "examples:".toList.isPrefixOf low then some (line.take 8)
  else none

/-- Check 5 helper: does the line match `^\s+\w+:.*$` — leading whitespace,
then a word, then a colon?  (The pattern's `\s` could also swallow a line
break of a preceding blank line; a match exists under that reading exactly
when a line of this sing form exists, which is all check 5 consumes.) -/
def isParamLine (line : List Char) : Bool :=
  match line with
  | [] => false
  | c :: _ =>
    pyIsSpace c &&
      (let r1 := line.dropWhile pyIsSpace
       !(r1.takeWhile isWordChar).isEmpty &&
         decide ((r1.dropWhile isWordChar).head? = some ':'))

/-- The lines of a document, `docs.split('\n')` (the line starts are where
`re.MULTILINE` anchors `^`). -/
def docLines (docs : String) : List (List Char) :=
  splitOnChar '\n' docs.toList

/-- The matches of `re.findall(r'^(Args|Parameters|Returns|Examples):', docs,
re.MULTILINE | re.IGNORECASE)`: the captured header text of each line that
starts with one of the four section headers. -/
def sectionHeaders (docs : String) : List (List Char) :=
  (docLines docs).filterMap headerOf

/-- Python `s[0].isupper()` on a captured section header. -/
def headCap (s : List Char) : Bool :=
  match s.head? with
  | some c => c.isUpper
  | none => false

/-- `DocumentationEvaluator.calculate_consistency`: five boolean checks
(Args/Parameters header, Returns header, examples, uniform header
capitalization, parameter-line format), scored as their fraction of 5 times
100, rounded to 2 decimals. -/
def calculate_consistency (docs : String) : ℚ :=
  let has_args := containsSub (pyLower docs) "args:" || containsSub (pyLower docs) "parameters:"
  let has_returns := containsSub (pyLower docs) "returns:" || containsSub (pyLower docs) "return:"
  let has_examples := containsSub docs "Example" || containsSub docs ">>>"
  let sections := sectionHeaders docs
  let capitalized := (sections.filter headCap).length
  let consistency_case :=
    if sections.isEmpty then false
    else decide (capitalized = sections.length) || decide (capitalized = 0)
  let param_lines := (docLines docs).filter isParamLine
  let check5 := if param_lines.isEmpty then true else decide (param_lines.length ≥ 1)
  let checks := [has_args, has_returns, has_examples, consistency_case, check5]
  pyRound2 (((checks.count true : ℚ) / (checks.length : ℚ)) * 100)

/-- `DocumentationEvaluator._interpret_keyword_overlap`. -/
def interpret_keyword_overlap (score : ℚ) : String :=
  if score ≥ 80 then "✅ Excellent - High semantic similarity"
  else if score ≥ 60 then "✓ Good - Adequate coverage of key concepts"
  else if score ≥ 40 then "⚠ Moderate - Some important concepts missing"
  else "❌ Low - Significant semantic differences"

/-- `DocumentationEvaluator._interpret_coverage`. -/
def interpret_coverage (score : ℚ) : String :=
  if score = 100 then "✅ Perfect - All elements documented"
  else if score ≥ 80 then "✓ High - Most elements documented"
  else if score ≥ 60 then "⚠ Moderate - Some elements missing documentation"
  else "❌ Low - Many elements undocumented"

/-- `DocumentationEvaluator._interpret_length_ratio`. -/
def interpret_length_ratio (ratio : ℚ) : String :=
  if 8 / 10 ≤ ratio ∧ ratio ≤ 12 / 10 then "✅ Balanced - Similar verbosity to human docs"
  else if ratio > 12 / 10 then "⚠ Verbose - AI documentation is more detailed"
  else "⚠ Concise - AI documentation is briefer"

/-- `DocumentationEvaluator._interpret_consistency`. -/
def interpret_consistency (score : ℚ) : String :=
  if score ≥ 90 then "✅ Highly Consistent - Uniform style throughout"
  else if score ≥ 70 then "✓ Generally Consistent - Minor variations"
  else if score ≥ 50 then "⚠ Moderately Consistent - Some inconsistencies"
  else "❌ Inconsistent - Significant style variations"

/-- One entry of the `detailed_analysis` dictionary: a raw value and its
human-readable interpretation tag. -/
structure MetricEntry where
  value : ℚ
  interpretation : String
deriving DecidableEq

/-- The `detailed_analysis` dictionary built by `evaluate`. -/
structure DetailedAnalysis where
  keyword_overlap : MetricEntry
  coverage : MetricEntry
  length_entry : MetricEntry
  consistency : MetricEntry
deriving DecidableEq

/-- `EvaluationResult` from `evaluator.py`. -/
structure EvaluationResult where
  keyword_overlap_score : ℚ
  coverage_score : ℚ
  length_ratio : ℚ
  consistency_score : ℚ
  overall_score : ℚ
  detailed_analysis : DetailedAnalysis
deriving DecidableEq

/-- The length term of the overall score,
`min(100, (1.0 / abs(length_ratio - 1.0 + 0.1)) * 10)`.

In the source this is binary64 arithmetic; `abs(r - 1.0 + 0.1)` is nonzero
for every binary64 `r` (the real solution `1 - 0.1 ≈ 0.8999999999999999944`
needs 55 significand bits, so no double reaches it; at `r = 0.9` the double
value is about `2.78e-17` and the clamp saturates at 100).  The rational
embedding makes the same clamp explicit at the exact peak. -/
def lengthTerm (length_ratio : ℚ) : ℚ :=
  let d := |length_ratio - 1 + 1 / 10|
  if d = 0 then 100 else min 100 ((1 / d) * 10)

/-- `DocumentationEvaluator.evaluate`: the four metrics plus the weighted
overall score and the detailed-analysis dictionary. -/
def evaluate (ai_docs human_docs : String) (code_structure : CodeStructure) :
    EvaluationResult :=
  let keyword_score := calculate_keyword_overlap ai_docs human_docs
  let coverage_score := calculate_coverage ai_docs code_structure
  let length_ratio := calculate_length_ratio ai_docs human_docs
  let consistency_score := calculate_consistency ai_docs
  let overall_score :=
    keyword_score * (35 / 100) +
    coverage_score * (30 / 100) +
    lengthTerm length_ratio * (15 / 100) +
    consistency_score * (20 / 100)
  { keyword_overlap_score := keyword_score
    coverage_score := coverage_score
    length_ratio := length_ratio
    consistency_score := consistency_score
    overall_score := overall_score
    detailed_analysis :=
      { keyword_overlap := ⟨keyword_score, interpret_keyword_overlap keyword_score⟩
        coverage := ⟨coverage_score, interpret_coverage coverage_score⟩
        length_entry := ⟨length_ratio, interpret_length_ratio length_ratio⟩
        consistency := ⟨consistency_score, interpret_consistency consistency_score⟩ } }

/-! ## General lemmas about the metric values -/

theorem pyRound2_natCast (n : ℕ) : pyRound2 (n : ℚ) = n := by
  have := pyRound2_intCast (n : ℤ)
  push_cast at this ⊢
  exact this

theorem pyRound2_nonneg_le_100 {x : ℚ} (h0 : 0 ≤ x) (h100 : x ≤ 100) :
    0 ≤ pyRound2 x ∧ pyRound2 x ≤ 100 := by
  have h := pyRound2_bounds (a := 0) (b := 100) (by exact_mod_cast h0) (by exact_mod_cast h100)
  exact ⟨by exact_mod_cast h.1, by exact_mod_cast h.2⟩

theorem nat_div_mul_100_mem {a b : ℕ} (hab : a ≤ b) :
    0 ≤ ((a : ℚ) / (b : ℚ)) * 100 ∧ ((a : ℚ) / (b : ℚ)) * 100 ≤ 100 := by
  rcases Nat.eq_zero_or_pos b with hb | hb
  · subst hb
    interval_cases a
    norm_num
  · have hbq : (0 : ℚ) < (b : ℚ) := by exact_mod_cast hb
    have h1 : (0 : ℚ) ≤ (a : ℚ) / (b : ℚ) := by positivity
    have h2 : (a : ℚ) / (b : ℚ) ≤ 1 := by
      rw [div_le_one hbq]
      exact_mod_cast hab
    constructor <;> nlinarith

theorem calculate_keyword_overlap_mem (ai_docs human_docs : String) :
    0 ≤ calculate_keyword_overlap ai_docs human_docs ∧
      calculate_keyword_overlap ai_docs human_docs ≤ 100 := by
  unfold calculate_keyword_overlap
  dsimp only
  split
  · norm_num
  · have hsub : (extract_keywords ai_docs ∩ extract_keywords human_docs).card ≤
        (extract_keywords ai_docs ∪ extract_keywords human_docs).card :=
      Finset.card_le_card Finset.inter_subset_union
    have := nat_div_mul_100_mem hsub
    exact pyRound2_nonneg_le_100 this.1 this.2

theorem calculate_coverage_mem (docs : String) (code_structure : CodeStructure) :
    0 ≤ calculate_coverage docs code_structure ∧
      calculate_coverage docs code_structure ≤ 100 := by
  unfold calculate_coverage
  dsimp only
  split
  · norm_num
  · have h1 : (code_structure.functions.filter
        (fun f => containsSub (pyLower docs) (pyLower f.name))).length ≤
        code_structure.functions.length := List.length_filter_le _ _
    have h2 : (code_structure.classes.filter
        (fun c => containsSub (pyLower docs) (pyLower c.name))).length ≤
        code_structure.classes.length := List.length_filter_le _ _
    have := nat_div_mul_100_mem (Nat.add_le_add h1 h2)
    exact pyRound2_nonneg_le_100 this.1 this.2

theorem calculate_consistency_mem (docs : String) :
    0 ≤ calculate_consistency docs ∧ calculate_consistency docs ≤ 100 := by
  unfold calculate_consistency
  dsimp only
  exact pyRound2_nonneg_le_100 (nat_div_mul_100_mem (List.count_le_length _ _)).1
    (nat_div_mul_100_mem (List.count_le_length _ _)).2

theorem lengthTerm_mem (length_ratio : ℚ) :
    0 ≤ lengthTerm length_ratio ∧ lengthTerm length_ratio ≤ 100 := by
  unfold lengthTerm
  dsimp only
  split
  · norm_num
  · rename_i hd
    have habs : 0 ≤ |length_ratio - 1 + 1 / 10| := abs_nonneg _
    have hpos : 0 < |length_ratio - 1 + 1 / 10| := lt_of_le_of_ne habs (Ne.symm hd)
    constructor
    · apply le_min
      · norm_num
      · positivity
    · exact min_le_left _ _

/-- C1: for every generated document, reference document and structural model,
`evaluate` returns a result whose `overall_score` lies in `[0, 100]`; the
weighted sum is total (no exception can escape: the clamped length term is
defined for every value of `length_ratio`, including the exact peak that
binary64 arithmetic never reaches). -/
theorem evaluate_overall_score_in_range (ai_docs human_docs : String)
    (code_structure : CodeStructure) :
    0 ≤ (evaluate ai_docs human_docs code_structure).overall_score ∧
      (evaluate ai_docs human_docs code_structure).overall_score ≤ 100 := by
  have hk := calculate_keyword_overlap_mem ai_docs human_docs
  have hcov := calculate_coverage_mem ai_docs code_structure
  have hcons := calculate_consistency_mem ai_docs
  have hlen := lengthTerm_mem (calculate_length_ratio ai_docs human_docs)
  simp only [evaluate]
  constructor <;> nlinarith [hk.1, hk.2, hcov.1, hcov.2, hcons.1, hcons.2, hlen.1, hlen.2]

/-- C8: `calculate_length_ratio` is exactly 1 when the reference document has
zero whitespace-separated words, and otherwise is the word-count quotient
rounded to 2 decimals; in particular `"a b c d"` against `"a b"` gives 2. -/
theorem calculate_length_ratio_spec (ai_docs human_docs : String) :
    (wordCount human_docs = 0 → calculate_length_ratio ai_docs human_docs = 1) ∧
    (wordCount human_docs ≠ 0 →
      calculate_length_ratio ai_docs human_docs =
        pyRound2 ((wordCount ai_docs : ℚ) / (wordCount human_docs : ℚ))) ∧
    calculate_length_ratio "a b c d" "a b" = 2 := by
  refine ⟨?_, ?_, ?_⟩
  · intro h
    unfold calculate_length_ratio
    dsimp only
    rw [if_pos h]
  · intro h
    unfold calculate_length_ratio
    dsimp only
    rw [if_neg h]
  · have h1 : wordCount "a b c d" = 4 := by decide
    have h2 : wordCount "a b" = 2 := by decide
    unfold calculate_length_ratio
    dsimp only
    rw [h1, h2]
    norm_num [pyRound2, roundHalfEven]

/-- Witness for C8 at concrete inputs: the zero-reference case on `""` and the
quotient case on `"a b c d"` against `"a b"`. -/
theorem calculate_length_ratio_spec_witness :
    calculate_length_ratio "x y z" "" = 1 ∧
      calculate_length_ratio "a b c d" "a b" =
        pyRound2 ((wordCount "a b c d" : ℚ) / (wordCount "a b" : ℚ)) :=
  ⟨(calculate_length_ratio_spec "x y z" "").1 (by decide),
   (calculate_length_ratio_spec "a b c d" "a b").2.1 (by decide)⟩

/-- Auxiliary count bound: a five-element boolean list ending in `true` has
between 1 and 5 occurrences of `true`, so the consistency score it induces is
at least 20. -/
theorem consistency_score_ge (a b c d : Bool) :
    20 ≤ pyRound2 ((((([a, b, c, d, true] : List Bool).count true) : ℚ) /
      ((([a, b, c, d, true] : List Bool).length) : ℚ)) * 100) := by
  have h1 : 1 ≤ ([a, b, c, d, true] : List Bool).count true := by
    cases a <;> cases b <;> cases c <;> cases d <;> decide
  have hlen : (([a, b, c, d, true] : List Bool).length : ℚ) = 5 := by
    norm_num
  rw [hlen]
  have key : ((([a, b, c, d, true] : List Bool).count true : ℚ) / 5) * 100 =
      ((([a, b, c, d, true] : List Bool).count true * 20 : ℕ) : ℚ) := by
    push_cast
    ring
  rw [key, pyRound2_natCast]
  have : (20 : ℕ) ≤ ([a, b, c, d, true] : List Bool).count true * 20 := by omega
  exact_mod_cast this

/-- The fifth consistency check is `true` on both of its branches. -/
theorem check5_true (docs : String) :
    (if ((docLines docs).filter isParamLine).isEmpty then true
     else decide (((docLines docs).filter isParamLine).length ≥ 1)) = true := by
  cases h : ((docLines docs).filter isParamLine).isEmpty
  · have hne : ((docLines docs).filter isParamLine) ≠ [] := by
      intro he
      rw [he] at h
      simp at h
    have hlen : 1 ≤ ((docLines docs).filter isParamLine).length :=
      Nat.one_le_iff_ne_zero.mpr (fun hz => hne (List.eq_nil_of_length_eq_zero hz))
    simp [h, hlen]
  · simp [h]

/-- C9: the fifth check of `calculate_consistency` (parameter-line format)
passes for every document — with or without an indented `word:` line — so the
consistency score is always at least 20. -/
theorem calculate_consistency_ge_20 (docs : String) :
    (let param_lines := (docLines docs).filter isParamLine
     (if param_lines.isEmpty then true else decide (param_lines.length ≥ 1)) = true) ∧
    20 ≤ calculate_consistency docs := by
  constructor
  · exact check5_true docs
  · unfold calculate_consistency
    dsimp only
    rw [check5_true docs]
    exact consistency_score_ge _ _ _ _

/-- C4 counterexample: evaluating the empty document against itself gives a
keyword-overlap score of 0, not 100 — the code returns 0 whenever either
keyword set is empty, identical inputs included. -/
theorem keyword_overlap_self_counterexample :
    calculate_keyword_overlap "" "" = 0 ∧ calculate_keyword_overlap "" "" ≠ 100 := by
  have h : extract_keywords "" = ∅ := by decide
  have h0 : calculate_keyword_overlap "" "" = 0 := by
    unfold calculate_keyword_overlap
    dsimp only
    rw [if_pos (Or.inl h)]
  exact ⟨h0, by rw [h0]; norm_num⟩

/-- C4 amended: evaluating a document against itself yields length ratio 1
for every document, keyword-empty ones included; the keyword overlap is 100
whenever the document's keyword set is non-empty. -/
theorem evaluate_self_scores (docs : String) :
    calculate_length_ratio docs docs = 1 ∧
    (extract_keywords docs ≠ ∅ → calculate_keyword_overlap docs docs = 100) := by
  constructor
  · unfold calculate_length_ratio
    dsimp only
    cases hw : wordCount docs with
    | zero => rw [if_pos rfl]
    | succ n =>
      rw [if_neg (by simp)]
      have hne : ((n + 1 : ℕ) : ℚ) ≠ 0 := by positivity
      rw [div_self hne]
      have : (1 : ℚ) = ((1 : ℕ) : ℚ) := by norm_num
      rw [this, pyRound2_natCast]
  · intro h
    unfold calculate_keyword_overlap
    dsimp only
    rw [if_neg (by simp [h])]
    rw [Finset.inter_self, Finset.union_self]
    have hpos : 0 < (extract_keywords docs).card :=
      Finset.card_pos.mpr (Finset.nonempty_iff_ne_empty.mpr h)
    have hne : ((extract_keywords docs).card : ℚ) ≠ 0 := by
      exact_mod_cast Nat.pos_iff_ne_zero.mp hpos
    rw [div_self hne]
    have : (1 : ℚ) * 100 = ((100 : ℕ) : ℚ) := by norm_num
    rw [this, pyRound2_natCast]
    norm_num

/-- Witness for C4 (amended): the length ratio is 1 even for the
keyword-empty document `""`, and the non-empty-keyword hypothesis is
discharged at `"hello world"`. -/
theorem evaluate_self_scores_witness :
    calculate_length_ratio "" "" = 1 ∧
      extract_keywords "hello world" ≠ ∅ ∧
      calculate_keyword_overlap "hello world" "hello world" = 100 :=
  ⟨(evaluate_self_scores "").1, by decide,
    (evaluate_self_scores "hello world").2 (by decide)⟩

/-- C6: `calculate_coverage` is 100 for every document whenever the model has
no functions and no classes; and for a fixed model, the coverage of `docs'`
is at least that of `docs` whenever `docs'` contains (case-insensitively)
every element name that `docs` contains. -/
theorem calculate_coverage_spec (code_structure : CodeStructure) (docs docs' : String) :
    (code_structure.functions.length + code_structure.classes.length = 0 →
      calculate_coverage docs code_structure = 100) ∧
    ((∀ f ∈ code_structure.functions,
        containsSub (pyLower docs) (pyLower f.name) = true →
          containsSub (pyLower docs') (pyLower f.name) = true) →
     (∀ c ∈ code_structure.classes,
        containsSub (pyLower docs) (pyLower c.name) = true →
          containsSub (pyLower docs') (pyLower c.name) = true) →
      calculate_coverage docs code_structure ≤ calculate_coverage docs' code_structure) := by
  constructor
  · intro h
    unfold calculate_coverage
    dsimp only
    rw [if_pos h]
  · intro hf hc
    unfold calculate_coverage
    dsimp only
    by_cases h : code_structure.functions.length + code_structure.classes.length = 0
    · rw [if_pos h, if_pos h]
    · rw [if_neg h, if_neg h]
      apply pyRound2_mono
      have hpos : 0 < ((code_structure.functions.length + code_structure.classes.length : ℕ) : ℚ) := by
        have : 0 < code_structure.functions.length + code_structure.classes.length :=
          Nat.pos_of_ne_zero h
        exact_mod_cast this
      have hmf : (code_structure.functions.filter
          (fun f => containsSub (pyLower docs) (pyLower f.name))).length ≤
          (code_structure.functions.filter
            (fun f => containsSub (pyLower docs') (pyLower f.name))).length := by
        simp only [← List.countP_eq_length_filter]
        exact List.countP_mono_left hf
      have hmc : (code_structure.classes.filter
          (fun c => containsSub (pyLower docs) (pyLower c.name))).length ≤
          (code_structure.classes.filter
            (fun c => containsSub (pyLower docs') (pyLower c.name))).length := by
        simp only [← List.countP_eq_length_filter]
        exact List.countP_mono_left hc
      have hnum : ((code_structure.functions.filter
            (fun f => containsSub (pyLower docs) (pyLower f.name))).length +
          (code_structure.classes.filter
            (fun c => containsSub (pyLower docs) (pyLower c.name))).length : ℚ) ≤
          ((code_structure.functions.filter
            (fun f => containsSub (pyLower docs') (pyLower f.name))).length +
          (code_structure.classes.filter
            (fun c => containsSub (pyLower docs') (pyLower c.name))).length : ℚ) := by
        exact_mod_cast Nat.add_le_add hmf hmc
      rw [div_mul_eq_mul_div, div_mul_eq_mul_div]
      refine (div_le_div_iff_of_pos_right hpos).mpr ?_
      push_cast
      push_cast at hnum
      nlinarith [hnum]

/-- Witness for C6: the empty model scores 100 on any document, and coverage
over a one-function model is monotone from `""` to `"a foo b"`. -/
theorem calculate_coverage_spec_witness :
    calculate_coverage "x" ⟨[], [], none, 0, true, none⟩ = 100 ∧
      calculate_coverage ""
          ⟨[⟨"foo", [], none, none, 1, 1, "def foo(): pass"⟩], [], none, 1, true, none⟩ ≤
        calculate_coverage "a foo b"
          ⟨[⟨"foo", [], none, none, 1, 1, "def foo(): pass"⟩], [], none, 1, true, none⟩ :=
  ⟨(calculate_coverage_spec ⟨[], [], none, 0, true, none⟩ "x" "x").1 (by decide),
   (calculate_coverage_spec
      ⟨[⟨"foo", [], none, none, 1, 1, "def foo(): pass"⟩], [], none, 1, true, none⟩
      "" "a foo b").2 (by decide) (by decide)⟩

/-- C7: `calculate_consistency` returns 100 for every document that contains
an `Args:` header, a `Returns:` header, the token `Example`, line-start
section headers sharing one capitalization convention, and at least one
indented `word:` parameter line. -/
theorem calculate_consistency_eq_100 (docs : String)
    (h1 : containsSub (pyLower docs) "args:" = true)
    (h2 : containsSub (pyLower docs) "returns:" = true)
    (h3 : containsSub docs "Example" = true)
    (h4 : sectionHeaders docs ≠ [] ∧
      (((sectionHeaders docs).filter headCap).length = (sectionHeaders docs).length ∨
        ((sectionHeaders docs).filter headCap).length = 0))
    (_h5 : (docLines docs).filter isParamLine ≠ []) :
    calculate_consistency docs = 100 := by
  have hE : (sectionHeaders docs).isEmpty = false := by
    cases hE2 : (sectionHeaders docs).isEmpty
    · rfl
    · exact absurd (List.isEmpty_iff.mp hE2) h4.1
  have hcase : (if (sectionHeaders docs).isEmpty = true then false
      else decide (((sectionHeaders docs).filter headCap).length = (sectionHeaders docs).length) ||
        decide (((sectionHeaders docs).filter headCap).length = 0)) = true := by
    rw [hE]
    simp only [Bool.false_eq_true, if_false]
    rcases h4.2 with hh | hh <;> simp [hh]
  unfold calculate_consistency
  dsimp only
  rw [h1, h2, h3, hcase, check5_true docs]
  simp only [Bool.true_or]
  have hcnt : List.count true [true, true, true, true, true] = 5 := by decide
  have hlen : List.length ([true, true, true, true, true] : List Bool) = 5 := by decide
  rw [hcnt, hlen]
  norm_num [pyRound2, roundHalfEven]

/-- Witness for C7 at a concrete document with all five features. -/
theorem calculate_consistency_eq_100_witness :
    calculate_consistency "Args:\n    x: value\nReturns:\n    int\nExample" = 100 :=
  calculate_consistency_eq_100 "Args:\n    x: value\nReturns:\n    int\nExample"
    (by decide) (by decide) (by decide) (by decide) (by decide)

/-! ## Structural extraction (`code_parser.py`)

The CPython `ast.parse` collaborator is external to this repository; its
outcome on a source text is modelled abstractly: either a `SyntaxError`
carrying the failing line number and a diagnostic, or a parsed module from
which `extract_functions`, `extract_classes` and `ast.get_docstring` read
the module-level functions, the classes, and the module docstring. -/

/-- The `lineno` and `msg` attributes of a caught Python `SyntaxError`. -/
structure PySyntaxError where
  lineno : Nat
  msg : String
deriving DecidableEq

/-- The content `CodeParser` reads off a successfully parsed `ast` tree. -/
structure ParsedModule where
  functions : List FunctionInfo
  classes : List ClassInfo
  module_docstring : Option String
deriving DecidableEq

/-- The message built by `CodeParser.validate_syntax` for a syntax error:
`f"Syntax error at line {e.lineno}: {e.msg}"`. -/
def syntaxErrorMessage (e : PySyntaxError) : String :=
  "Syntax error at line " ++ toString e.lineno ++ ": " ++ e.msg

/-- `CodeParser.validate_syntax` as a function of the parse outcome:
`(True, None)` on success, `(False, message)` on a syntax error. -/
def validate_syntax (parse : Except PySyntaxError ParsedModule) : Bool × Option String :=
  match parse with
  | .ok _ => (true, none)
  | .error e => (false, some (syntaxErrorMessage e))

/-- `CodeParser.get_structure`: on a syntax error, a `CodeStructure` with
empty collections, `is_valid=False` and the error message; on success, the
extracted functions, classes and module docstring.  `total_lines` counts
`code.split('\n')` in both cases. -/
def get_structure (code : String) (parse : Except PySyntaxError ParsedModule) : CodeStructure :=
  match parse with
  | .error e =>
    { functions := []
      classes := []
      module_docstring := none
      total_lines := (splitOnChar '\n' code.toList).length
      is_valid := false
      error_message := some (syntaxErrorMessage e) }
  | .ok m =>
    { functions := m.functions
      classes := m.classes
      module_docstring := m.module_docstring
      total_lines := (splitOnChar '\n' code.toList).length
      is_valid := true
      error_message := none }

/-- C2: for every syntactically invalid source text (a parse outcome that is
a `SyntaxError`), `get_structure` returns a model with `valid=false`, empty
function and class collections, and a non-empty error message containing the
failing line number; the error is a returned value, never a propagated
fault. -/
theorem get_structure_invalid (code : String) (e : PySyntaxError)
    (parse : Except PySyntaxError ParsedModule) (h : parse = .error e) :
    (get_structure code parse).is_valid = false ∧
    (get_structure code parse).functions = [] ∧
    (get_structure code parse).classes = [] ∧
    (get_structure code parse).error_message = some (syntaxErrorMessage e) ∧
    syntaxErrorMessage e ≠ "" ∧
    containsSub (syntaxErrorMessage e) (toString e.lineno) = true := by
  subst h
  refine ⟨rfl, rfl, rfl, rfl, ?_, ?_⟩
  · intro hm
    have : (syntaxErrorMessage e).data = [] := by rw [hm]
    unfold syntaxErrorMessage at this
    simp [String.data_append] at this
  · unfold containsSub syntaxErrorMessage
    simp only [decide_eq_true_eq, String.toList, String.data_append]
    exact ⟨"Syntax error at line ".data, (": " ++ e.msg).data, by simp [String.data_append]⟩

/-- Witness for C2 at a concrete invalid source and syntax error. -/
theorem get_structure_invalid_witness :
    (get_structure "def f(:" (Except.error ⟨1, "invalid syntax"⟩)).is_valid = false ∧
    (get_structure "def f(:" (Except.error ⟨1, "invalid syntax"⟩)).functions = [] ∧
    (get_structure "def f(:" (Except.error ⟨1, "invalid syntax"⟩)).classes = [] ∧
    (get_structure "def f(:" (Except.error ⟨1, "invalid syntax"⟩)).error_message =
      some (syntaxErrorMessage ⟨1, "invalid syntax"⟩) ∧
    syntaxErrorMessage ⟨1, "invalid syntax"⟩ ≠ "" ∧
    containsSub (syntaxErrorMessage ⟨1, "invalid syntax"⟩) (toString (1 : Nat)) = true :=
  get_structure_invalid "def f(:" ⟨1, "invalid syntax"⟩ (Except.error ⟨1, "invalid syntax"⟩) rfl

/-! ## Heuristic synthesis (`llm_interface.py`)

`LLMInterface._split_function_name` uses
`re.findall(r'[A-Z]?[a-z]+|[A-Z]+(?=[A-Z][a-z]|\d|\W|$)|\d+', name)` for
names without an underscore.  The scanner below hand-compiles that pattern:
at each position the three alternatives are tried in order (the first with
its optional leading capital taken greedily, the second with greedy
backtracking against its lookahead), and on failure the scan advances one
character. -/

/-- First alternative `[A-Z]?[a-z]+`: an optional capital followed by a
non-empty lowercase run (the capital is only consumed when a lowercase
letter follows, mirroring greedy `?` with backtracking). -/
def matchAlt1 : List Char → Option (List Char × List Char)
  | [] => none
  | c :: rest =>
    if c.isUpper then
      match rest.span Char.isLower with
      | (run, r) => if run.isEmpty then none else some (c :: run, r)
    else if c.isLower then
      match rest.span Char.isLower with
      | (run, r) => some (c :: run, r)
    else none

/-- The lookahead `(?=[A-Z][a-z]|\d|\W|$)` of the second alternative. -/
def lookahead2 : List Char → Bool
  | [] => true
  | c :: rest =>
    if c.isUpper then
      match rest with
      | d :: _ => d.isLower
      | [] => false
    else if c.isDigit then true
    else if !(isWordChar c) then true
    else false

/-- Greedy backtracking for `[A-Z]+`: `taken` holds the consumed capitals in
reverse; capitals are given back one at a time until the lookahead holds. -/
def alt2Go : List Char → List Char → Option (List Char × List Char)
  | [], _ => none
  | c :: rt, rest =>
    if lookahead2 rest then some ((c :: rt).reverse, rest)
    else alt2Go rt (c :: rest)

/-- Second alternative `[A-Z]+(?=[A-Z][a-z]|\d|\W|$)`. -/
def matchAlt2 (l : List Char) : Option (List Char × List Char) :=
  match l.span Char.isUpper with
  | (run, rest) => alt2Go run.reverse rest

/-- Third alternative `\d+`. -/
def matchAlt3 (l : List Char) : Option (List Char × List Char) :=
  match l.span Char.isDigit with
  | (run, rest) => if run.isEmpty then none else some (run, rest)

/-- The `re.findall` scan; the fuel, one unit per consumed character, is
ample because every step consumes at least one character. -/
def regexFindAllGo : Nat → List Char → List (List Char)
  | 0, _ => []
  | _, [] => []
  | fuel + 1, l@(_ :: rest) =>
    match matchAlt1 l with
    | some (tok, r) => tok :: regexFindAllGo fuel r
    | none =>
      match matchAlt2 l with
      | some (tok, r) => tok :: regexFindAllGo fuel r
      | none =>
        match matchAlt3 l with
        | some (tok, r) => tok :: regexFindAllGo fuel r
        | none => regexFindAllGo fuel rest

/-- All matches of the camel-case pattern in a character list. -/
def regexFindAll (l : List Char) : List (List Char) :=
  regexFindAllGo (l.length + 1) l

/-- `LLMInterface._split_function_name`: names containing `'_'` are split at
underscores verbatim; other names are split by the camel-case regex and each
part lower-cased. -/
def split_function_name (name : String) : List String :=
  if name.toList.contains '_' then
    (splitOnChar '_' name.toList).map String.mk
  else
    (regexFindAll name.toList).map (fun p => String.mk (p.map Char.toLower))

/-- The `action_templates` verb table of `_generate_description`. -/
def action_templates : List (String × String) :=
  [("get", "Retrieves"), ("set", "Sets or updates"), ("calculate", "Calculates"),
   ("compute", "Computes"), ("process", "Processes"), ("validate", "Validates"),
   ("check", "Checks"), ("find", "Finds"), ("search", "Searches for"),
   ("create", "Creates"), ("generate", "Generates"), ("build", "Builds"),
   ("parse", "Parses"), ("format", "Formats"), ("convert", "Converts"),
   ("transform", "Transforms"), ("sort", "Sorts"), ("filter", "Filters"),
   ("load", "Loads"), ("save", "Saves"), ("delete", "Deletes"),
   ("update", "Updates"), ("add", "Adds"), ("remove", "Removes")]

/-- `LLMInterface._generate_description`. -/
def generate_description (_func_name : String) (name_parts : List String)
    (params : List String) : String :=
  let action := name_parts.headD "process"
  let action_desc := (action_templates.lookup action).getD (pyCapitalize action ++ "s")
  let description :=
    if name_parts.length > 1 then action_desc ++ " " ++ joinSep " " name_parts.tail
    else action_desc ++ " the input data"
  let description :=
    if (params.filter (fun p => p != "self")).length > 2 then
      description ++ " with multiple parameters"
    else description
  let description := description ++ "."
  let detailed := "\n\nThis function performs " ++ action ++ " operations"
  let detailed :=
    if name_parts.length > 1 then detailed ++ " on " ++ joinSep " " name_parts.tail
    else detailed
  let detailed :=
    detailed ++ ". It is designed to handle various input scenarios and provide reliable results."
  description ++ detailed

/-- `LLMInterface._generate_param_description`: the semantic buckets in
source priority order. -/
def generate_param_description (param : String) (_func_name : String) : String :=
  let param_lower := pyLower param
  if param_lower == "data" || param_lower == "input" || param_lower == "value" then
    "The input " ++ param ++ " to be processed"
  else if param_lower == "name" || param_lower == "filename" || param_lower == "file" then
    "The " ++ param ++ " of the file or resource"
  else if param_lower == "path" || param_lower == "filepath" then
    "The " ++ param ++ " to the file or directory"
  else if param_lower == "key" || param_lower == "id" || param_lower == "identifier" then
    "Unique " ++ param ++ " for identification"
  else if param_lower == "options" || param_lower == "config" || param_lower == "settings" then
    "Configuration " ++ param ++ " for the operation"
  else if param_lower == "items" || param_lower == "list" || param_lower == "array" then
    "Collection of " ++ param ++ " to process"
  else if containsSub param_lower "count" || containsSub param_lower "num" ||
      containsSub param_lower "size" then
    "The " ++ param ++ " specifying quantity"
  else if containsSub param_lower "flag" || containsSub param_lower "enable" ||
      startsWithPy param_lower "is_" then
    "Boolean flag indicating whether to " ++ replaceSub (replaceSub param "is_" "") "_" " "
  else
    "The " ++ param ++ " parameter"

/-- Return description inferred from the function-name spelling (the
no-annotation branch of `_generate_return_description`). -/
def return_desc_from_name (func_name : String) : String :=
  if startsWithPy func_name "is_" || startsWithPy func_name "has_" ||
      startsWithPy func_name "check_" then
    "Boolean value indicating the validation result"
  else if startsWithPy func_name "get_" || startsWithPy func_name "find_" then
    "The requested data or resource"
  else if startsWithPy func_name "calculate_" || startsWithPy func_name "compute_" then
    "The calculated numerical result"
  else
    "The processed result of the operation"

/-- `LLMInterface._generate_return_description`; an annotation of `Some ""`
is falsy in Python and falls through to the name-based inference. -/
def generate_return_description (func_name : String) (return_ann : Option String) : String :=
  match return_ann with
  | some r =>
    if r == "" then return_desc_from_name func_name
    else if containsSub (pyLower r) "bool" then
      "Boolean value indicating success or validation result"
    else if containsSub (pyLower r) "int" then
      "Integer value representing the computed result or count"
    else if containsSub (pyLower r) "str" then
      "String containing the processed or formatted output"
    else if containsSub (pyLower r) "list" || containsSub r "List" then
      "List of processed items or results"
    else if containsSub (pyLower r) "dict" || containsSub r "Dict" then
      "Dictionary containing structured result data"
    else r ++ " object with the result"
  | none => return_desc_from_name func_name

/-- The per-parameter placeholder of `_generate_examples`. -/
def example_value (param : String) : String :=
  let param_lower := pyLower param
  if containsSub param_lower "name" || containsSub param_lower "str" then
    "\"" ++ param ++ "_value\""
  else if containsSub param_lower "num" || containsSub param_lower "count" ||
      containsSub param_lower "size" then "10"
  else if containsSub param_lower "list" || containsSub param_lower "items" then "[1, 2, 3]"
  else if containsSub param_lower "dict" || containsSub param_lower "data" then
    "\x7b\"key\": \"value\"\x7d"
  else if startsWithPy param_lower "is_" || containsSub param_lower "flag" then "True"
  else param ++ "_value"

/-- `LLMInterface._generate_examples`. -/
def generate_examples (func_name : String) (params : List String) : List String :=
  let non_self_params := params.filter (fun p => p != "self")
  if non_self_params.isEmpty then
    [">>> " ++ func_name ++ "()", "result"]
  else
    let example_values := non_self_params.map example_value
    [">>> " ++ func_name ++ "(" ++ joinSep ", " example_values ++ ")", "expected_result"]

/-- Python truthiness of the `Optional[str]` return annotation: present and
non-empty. -/
def annTruthy (return_ann : Option String) : Bool :=
  return_ann.getD "" != ""

/-- `LLMInterface._generate_inline_comments`. -/
def generate_inline_comments (func_info : FunctionInfo) : List String :=
  (if func_info.params.length > 1 then ["# Validate input parameters"] else []) ++
  ["# Perform main operation"] ++
  (if containsSub (pyLower func_info.body) "return" || annTruthy func_info.return_ann then
    ["# Return processed result"]
  else [])

/-- `DocumentationOutput` from `llm_interface.py`; the `param_descriptions`
dictionary is modelled as insertion-ordered pairs (each key maps to a value
determined by the key and the function name alone, so repeated keys collapse
to the same value and association-list lookup agrees with the dict). -/
structure DocumentationOutput where
  function_name : String
  description : String
  param_descriptions : List (String × String)
  return_description : String
  examples : List String
  inline_comments : List String
deriving DecidableEq

/-- `LLMInterface._generate_with_mock`: local-mode synthesis, a pure function
of the record; the receiver parameter is excluded by the exact comparison
`param == 'self'`. -/
def generate_with_mock (func_info : FunctionInfo) : DocumentationOutput :=
  let name_parts := split_function_name func_info.name
  let description := generate_description func_info.name name_parts func_info.params
  let param_descriptions := (func_info.params.filter (fun p => p != "self")).map
    (fun p => (p, generate_param_description p func_info.name))
  let return_desc := generate_return_description func_info.name func_info.return_ann
  let examples := generate_examples func_info.name func_info.params
  let inline_comments := generate_inline_comments func_info
  { function_name := func_info.name
    description := description
    param_descriptions := param_descriptions
    return_description := return_desc
    examples := examples
    inline_comments := inline_comments }

/-! ## Documentation formatting (`doc_generator.py`) -/

/-- The non-empty stripped detail lines of the description (the loop over
`description.split('\n')[1:]` keeping `part.strip()` when truthy). -/
def detailLines (description : String) : List String :=
  ((splitOnChar '\n' description.toList).tail.filter
    (fun p => !(pyStrip (String.mk p)).isEmpty)).map (fun p => pyStrip (String.mk p))

/-- The brief line: `description.split('\n')[0]`. -/
def briefLine (description : String) : String :=
  String.mk ((splitOnChar '\n' description.toList).headD [])

/-- `DocumentationGenerator._format_google_style`, as its list of output
lines (the source joins them with `'\n'`). -/
def format_google_lines (func_info : FunctionInfo) (ai_output : DocumentationOutput) :
    List String :=
  let brief := briefLine ai_output.description
  let detailed_parts := (splitOnChar '\n' ai_output.description.toList).tail
  let params := func_info.params.filter (fun p => p != "self")
  ["\"\"\"" ++ brief, ""] ++
  (if detailed_parts.isEmpty then [] else detailLines ai_output.description ++ [""]) ++
  (if params.isEmpty then []
   else ["Args:"] ++ params.map (fun param =>
     "    " ++ param ++ ": " ++
       ((ai_output.param_descriptions.lookup param).getD ("The " ++ param ++ " parameter"))) ++
     [""]) ++
  (if annTruthy func_info.return_ann || ai_output.return_description != "" then
    ["Returns:", "    " ++ ai_output.return_description, ""]
  else []) ++
  (if ai_output.examples.isEmpty then []
   else ["Examples:"] ++ ai_output.examples.map (fun e => "    " ++ e) ++ [""]) ++
  ["\"\"\""]

/-- `DocumentationGenerator._format_google_style` joined into the returned
string. -/
def format_google_style (func_info : FunctionInfo) (ai_output : DocumentationOutput) :
    String :=
  joinSep "\n" (format_google_lines func_info ai_output)

/-- `DocumentationGenerator._format_numpy_style`, as its list of output
lines. -/
def format_numpy_lines (func_info : FunctionInfo) (ai_output : DocumentationOutput) :
    List String :=
  let brief := briefLine ai_output.description
  let detailed_parts := (splitOnChar '\n' ai_output.description.toList).tail
  let params := func_info.params.filter (fun p => p != "self")
  let return_type := if annTruthy func_info.return_ann then func_info.return_ann.getD ""
    else "type"
  ["\"\"\"" ++ brief, ""] ++
  (if detailed_parts.isEmpty then [] else detailLines ai_output.description ++ [""]) ++
  (if params.isEmpty then []
   else ["Parameters", "----------"] ++
     (params.map (fun param =>
       [param ++ " : type",
        "    " ++ ((ai_output.param_descriptions.lookup param).getD
          ("The " ++ param ++ " parameter"))])).flatten ++
     [""]) ++
  (if annTruthy func_info.return_ann || ai_output.return_description != "" then
    ["Returns", "-------", return_type, "    " ++ ai_output.return_description, ""]
  else []) ++
  (if ai_output.examples.isEmpty then []
   else ["Examples", "--------"] ++ ai_output.examples ++ [""]) ++
  ["\"\"\""]

/-- `DocumentationGenerator._format_numpy_style` joined into the returned
string. -/
def format_numpy_style (func_info : FunctionInfo) (ai_output : DocumentationOutput) :
    String :=
  joinSep "\n" (format_numpy_lines func_info ai_output)

/-! ## End-to-end synthesis scenarios -/

/-- The function record of the end-to-end scenario: `calculate_total_price`
with parameters `[items, tax_rate]` and no return annotation. -/
def calc_total_price_info : FunctionInfo :=
  ⟨"calculate_total_price", ["items", "tax_rate"], none, none, 1, 2,
   "def calculate_total_price(items, tax_rate):\n    return total"⟩

set_option maxRecDepth 4000 in
/-- C3: local-mode synthesis for `calculate_total_price(items, tax_rate)`
derives the action phrase from the token `calculate` ("Calculates"), gives
`tax_rate` the generic fallback description, infers the return description
from the `calculate_` name, and the Google-style rendering emits the brief
line, blank, `Args:` block with both parameters, blank, `Returns:` block,
blank, `Examples:` block and the closing marker, in that order. -/
theorem mock_calc_total_price_google :
    split_function_name "calculate_total_price" = ["calculate", "total", "price"] ∧
    startsWithPy (generate_with_mock calc_total_price_info).description "Calculates" = true ∧
    (generate_with_mock calc_total_price_info).param_descriptions.lookup "tax_rate" =
      some "The tax_rate parameter" ∧
    (generate_with_mock calc_total_price_info).return_description =
      "The calculated numerical result" ∧
    format_google_lines calc_total_price_info (generate_with_mock calc_total_price_info) =
      ["\"\"\"Calculates total price.", "",
       "This function performs calculate operations on total price. It is designed to handle various input scenarios and provide reliable results.",
       "", "Args:", "    items: Collection of items to process",
       "    tax_rate: The tax_rate parameter", "", "Returns:",
       "    The calculated numerical result", "", "Examples:",
       "    >>> calculate_total_price([1, 2, 3], tax_rate_value)",
       "    expected_result", "", "\"\"\""] := by
  refine ⟨?_, ?_, ?_, ?_, ?_⟩ <;> decide

/-- `Char.ofNat` of a valid codepoint decodes back to the same number. -/
theorem toNat_ofNat_valid {n : Nat} (h : n.isValidChar) : (Char.ofNat n).toNat = n := by
  unfold Char.ofNat
  rw [dif_pos h]
  unfold Char.ofNatAux Char.toNat
  simp [UInt32.toNat]

/-- ASCII lower-casing is idempotent. -/
theorem charToLowerIdem (c : Char) : Char.toLower (Char.toLower c) = Char.toLower c := by
  by_cases h : c.toNat ≥ 65 ∧ c.toNat ≤ 90
  · have h1 : Char.toLower c = Char.ofNat (c.toNat + 32) := by
      unfold Char.toLower
      dsimp only
      rw [if_pos h]
    have hv : (c.toNat + 32).isValidChar := by
      left
      omega
    rw [h1]
    unfold Char.toLower
    dsimp only
    rw [toNat_ofNat_valid hv, if_neg (by omega)]
  · have h1 : Char.toLower c = c := by
      unfold Char.toLower
      dsimp only
      rw [if_neg h]
    rw [h1, h1]

/-- C5 counterexample: `_split_function_name("My_Func")` returns the verbatim
parts `["My", "Func"]`, which are not lowercase tokens — the underscore
branch performs no lower-casing. -/
theorem split_function_name_counterexample :
    split_function_name "My_Func" = ["My", "Func"] ∧
    (split_function_name "My_Func").all (fun t => pyLower t == t) = false := by
  refine ⟨?_, ?_⟩ <;> decide

/-- C5 amended: names with an underscore are split at underscores verbatim
(lowercase tokens only when the name is lowercase, e.g. `my_func`); names
without an underscore are split by the capital-boundary regex with
consecutive capitals grouped and every token lower-cased, so `HTTPServer`
gives `["http", "server"]` and `camelCase` gives `["camel", "case"]`. -/
theorem split_function_name_amended :
    split_function_name "HTTPServer" = ["http", "server"] ∧
    split_function_name "camelCase" = ["camel", "case"] ∧
    split_function_name "my_func" = ["my", "func"] ∧
    split_function_name "My_Func" = ["My", "Func"] ∧
    ∀ name : String, name.toList.contains '_' = false →
      (split_function_name name).all (fun t => pyLower t == t) = true := by
  refine ⟨by decide, by decide, by decide, by decide, ?_⟩
  intro name h
  unfold split_function_name
  rw [h]
  simp only [Bool.false_eq_true, if_false]
  rw [List.all_eq_true]
  intro t ht
  simp only [List.mem_map] at ht
  obtain ⟨p, hp, rfl⟩ := ht
  simp only [beq_iff_eq]
  show pyLower (String.mk (List.map Char.toLower p)) = String.mk (List.map Char.toLower p)
  unfold pyLower
  congr 1
  show (List.map Char.toLower p).map Char.toLower = List.map Char.toLower p
  rw [List.map_map]
  exact List.map_congr_left (fun a _ => charToLowerIdem a)

/-- Witness for C5 (amended) at the concrete name `getHTTPResponse2`. -/
theorem split_function_name_amended_witness :
    ("getHTTPResponse2".toList.contains '_') = false ∧
      (split_function_name "getHTTPResponse2").all (fun t => pyLower t == t) = true :=
  ⟨by decide, split_function_name_amended.2.2.2.2 "getHTTPResponse2" (by decide)⟩

/-- C10: receiver exclusion is by exact comparison with the literal name
`'self'` only: a first parameter named `cls` or `this` receives a parameter
description in the payload, a placeholder value in the example call, an
`Args` entry in the Google rendering and a `Parameters` entry in the NumPy
rendering, like any ordinary parameter. -/
theorem receiver_exclusion_exact_self (func_info : FunctionInfo) (p : String)
    (rest : List String) (hp : func_info.params = p :: rest)
    (hcls : p = "cls" ∨ p = "this") :
    (generate_with_mock func_info).param_descriptions.lookup p =
      some (generate_param_description p func_info.name) ∧
    generate_examples func_info.name func_info.params =
      [">>> " ++ func_info.name ++ "(" ++
        joinSep ", " (example_value p ::
          (rest.filter (fun q => q != "self")).map example_value) ++ ")",
       "expected_result"] ∧
    ("    " ++ p ++ ": " ++ generate_param_description p func_info.name) ∈
      format_google_lines func_info (generate_with_mock func_info) ∧
    (p ++ " : type") ∈ format_numpy_lines func_info (generate_with_mock func_info) := by
  have hps : p ≠ "self" := by rcases hcls with rfl | rfl <;> decide
  have hbne : (p != "self") = true := bne_iff_ne.mpr hps
  have hfilter : func_info.params.filter (fun q => q != "self") =
      p :: rest.filter (fun q => q != "self") := by
    rw [hp]
    exact List.filter_cons_of_pos hbne
  have hpd : (generate_with_mock func_info).param_descriptions =
      (p, generate_param_description p func_info.name) ::
        (rest.filter (fun q => q != "self")).map
          (fun q => (q, generate_param_description q func_info.name)) := by
    unfold generate_with_mock
    dsimp only
    rw [hfilter, List.map_cons]
  have hlook : (generate_with_mock func_info).param_descriptions.lookup p =
      some (generate_param_description p func_info.name) := by
    rw [hpd]
    simp [List.lookup]
  refine ⟨hlook, ?_, ?_, ?_⟩
  · unfold generate_examples
    dsimp only
    rw [hfilter]
    simp only [List.isEmpty_cons, Bool.false_eq_true, if_false, List.map_cons]
  · unfold format_google_lines
    dsimp only
    rw [hfilter]
    simp only [List.isEmpty_cons, Bool.false_eq_true, if_false]
    have hmem : ("    " ++ p ++ ": " ++ generate_param_description p func_info.name) ∈
        (p :: rest.filter (fun q => q != "self")).map (fun param =>
          "    " ++ param ++ ": " ++
            (((generate_with_mock func_info).param_descriptions.lookup param).getD
              ("The " ++ param ++ " parameter"))) := by
      refine List.mem_map.mpr ⟨p, List.mem_cons_self p _, ?_⟩
      rw [hlook]
      rfl
    exact List.mem_append_left _ (List.mem_append_left _ (List.mem_append_left _
      (List.mem_append_right _ (List.mem_append_left _ (List.mem_append_right _ hmem)))))
  · unfold format_numpy_lines
    dsimp only
    rw [hfilter]
    simp only [List.isEmpty_cons, Bool.false_eq_true, if_false]
    have hmem : (p ++ " : type") ∈
        ((p :: rest.filter (fun q => q != "self")).map (fun param =>
          [param ++ " : type",
           "    " ++ (((generate_with_mock func_info).param_descriptions.lookup param).getD
             ("The " ++ param ++ " parameter"))])).flatten := by
      refine List.mem_flatten.mpr ⟨[p ++ " : type",
        "    " ++ (((generate_with_mock func_info).param_descriptions.lookup p).getD
          ("The " ++ p ++ " parameter"))], ?_, ?_⟩
      · exact List.mem_map.mpr ⟨p, List.mem_cons_self p _, rfl⟩
      · exact List.mem_cons_self _ _
    exact List.mem_append_left _ (List.mem_append_left _ (List.mem_append_left _
      (List.mem_append_right _ (List.mem_append_left _ (List.mem_append_right _ hmem)))))

/-- A method record whose first parameter is the conventional `cls`. -/
def get_data_info : FunctionInfo :=
  ⟨"get_data", ["cls", "value"], none, none, 1, 2,
   "def get_data(cls, value):\n    return 1"⟩

/-- Witness for C10 at a concrete record with first parameter `cls`. -/
theorem receiver_exclusion_exact_self_witness :
    (generate_with_mock get_data_info).param_descriptions.lookup "cls" =
      some (generate_param_description "cls" get_data_info.name) ∧
    generate_examples get_data_info.name get_data_info.params =
      [">>> " ++ get_data_info.name ++ "(" ++
        joinSep ", " (example_value "cls" ::
          (["value"].filter (fun q => q != "self")).map example_value) ++ ")",
       "expected_result"] ∧
    ("    " ++ "cls" ++ ": " ++ generate_param_description "cls" get_data_info.name) ∈
      format_google_lines get_data_info (generate_with_mock get_data_info) ∧
    ("cls" ++ " : type") ∈ format_numpy_lines get_data_info (generate_with_mock get_data_info) :=
  receiver_exclusion_exact_self get_data_info "cls" ["value"] rfl (Or.inl rfl)
